import Mathlib

/-!
Verification of the heuristic code-complexity analyzer.

The analyzer is a pure JavaScript function `analyzeComplexity` built from four
components: a sanitizer (`stripCommentsAndStrings`), a known-algorithm pattern
matcher (`detectKnownAlgorithms`), a loop-structure analyzer
(`detectLoopsAndNesting`), a recursion analyzer (`detectRecursion`), and a
decision engine combining their signals.  Source text is modelled as `List Char`
(one entry per UTF-16 unit of the JavaScript string).  Each regular expression
of the source is embedded as a character-level scanner with the same
leftmost-match, greedy/lazy and word-boundary semantics; scanners that restart
after the end of a match take an explicit fuel argument (always instantiated
with the length of the scanned text plus one, which the per-step consumption
of at least one character makes sufficient), so that every definition is a
total computable function.
-/

/-- Source text: a JavaScript string as its list of characters. -/
abbrev Str := List Char

/-- JavaScript `\w` character class: `[A-Za-z0-9_]`. -/
def isWordChar (ch : Char) : Bool := ch.isAlphanum || ch == '_'

/-- First character of an identifier: `[A-Za-z_]`. -/
def isAlphaU (ch : Char) : Bool := ch.isAlpha || ch == '_'

/-- JavaScript `\s` on the code points that occur in source snippets:
space, tab, newline, carriage return, vertical tab, form feed. -/
def isWS (ch : Char) : Bool :=
  ch == ' ' || ch == '\t' || ch == '\n' || ch == '\r' || ch == '\x0b' || ch == '\x0c'

/-- Line terminators excluded by the regex `.` metacharacter. -/
def isNL (ch : Char) : Bool := ch == '\n' || ch == '\r'

/-- The three quote characters of the string-literal regex `(["'`])`. -/
def isQuote (ch : Char) : Bool := ch == '"' || ch == '\x27' || ch == '\x60'

/-- A word boundary `\b` sits before a word character exactly when the
previous character (if any) is not a word character. -/
def boundaryB (prev : Option Char) : Bool :=
  match prev with
  | none => true
  | some p => !(isWordChar p)

/-- Find the first `*/` and return the suffix after it (the lazy
`[\s\S]*?\*\/` part of the block-comment regex). -/
def findStarSlash : Str → Option Str
  | [] => none
  | '*' :: '/' :: rest => some rest
  | _ :: rest => findStarSlash rest

/-- One pass of `code.replace(/\/\*[\s\S]*?\*\//g, ' ')`: each block comment
(a `/*` up to the nearest `*/`) becomes a single space; an unterminated `/*`
matches nothing and is kept. -/
def stripBlockF : Nat → Str → Str
  | 0, l => l
  | _ + 1, [] => []
  | fuel + 1, '/' :: '*' :: rest =>
    match findStarSlash rest with
    | some r => ' ' :: stripBlockF fuel r
    | none => '/' :: '*' :: stripBlockF fuel rest
  | fuel + 1, c :: rest => c :: stripBlockF fuel rest

/-- Skip to the end of the current line, keeping the line terminator
(the `$` of a multiline regex is zero-width). -/
def dropToEol : Str → Str
  | [] => []
  | c :: rest => if isNL c then c :: rest else dropToEol rest

/-- One pass of `code.replace(/MARKER.*$/gm, ' ')` for a comment marker
(`//` or `#`): the marker and the rest of its line become a single space. -/
def stripLineMarkerF (marker : Str) : Nat → Str → Str
  | 0, l => l
  | _ + 1, [] => []
  | fuel + 1, c :: rest =>
    if marker.isPrefixOf (c :: rest) then
      ' ' :: stripLineMarkerF marker fuel (dropToEol ((c :: rest).drop marker.length))
    else
      c :: stripLineMarkerF marker fuel rest

/-- Backtracking matcher for the tail of `(["'`])(?:\\.|(?!\1).)*\1` after the
opening quote `q`: at each point the engine first tries the escape token
`\\.`, then the single-character token `(?!\1).` (both exclude line
terminators), and finally the closing quote.  Returns the suffix after the
closing quote of the first successful parse in that depth-first order. -/
def scanStr (q : Char) : Str → Option Str
  | [] => none
  | '\\' :: d :: rest2 =>
    if isNL d then none
    else
      match scanStr q rest2 with
      | some r => some r
      | none => scanStr q (d :: rest2)
  | ['\\'] => none
  | c :: rest =>
    if c == q then some rest
    else if isNL c then none
    else scanStr q rest

/-- One pass of `code.replace(/(["'`])(?:\\.|(?!\1).)*\1/gm, ' ')`: each
complete string/char literal becomes a single space; an opening quote with no
matching close is kept and the scan resumes one character later. -/
def stripStringsF : Nat → Str → Str
  | 0, l => l
  | _ + 1, [] => []
  | fuel + 1, c :: rest =>
    if isQuote c then
      match scanStr c rest with
      | some r => ' ' :: stripStringsF fuel r
      | none => c :: stripStringsF fuel rest
    else c :: stripStringsF fuel rest

/-- `stripCommentsAndStrings`: the four sequential replacement passes of the
sanitizer (block comments, `//` line comments, `#` line comments, quoted
literals), each replacing a match by one space. -/
def stripCommentsAndStrings (code : Str) : Str :=
  let c1 := stripBlockF (code.length + 1) code
  let c2 := stripLineMarkerF ("//".data) (c1.length + 1) c1
  let c3 := stripLineMarkerF ("#".data) (c2.length + 1) c2
  stripStringsF (c3.length + 1) c3

/-- `lower`: `String(code).toLowerCase()`. -/
def lowerL (code : Str) : Str := code.map Char.toLower

/-- Generic position scanner: tries the per-position predicate `p` (which also
sees the previous character, for `\b` word-boundary tests) at every suffix of
the text, advancing one character at a time.  Used for the pure `.test(...)`
existence checks, where overlap of candidate matches is irrelevant. -/
def scanPrevF (p : Option Char → Str → Bool) : Option Char → Str → Bool
  | _, [] => false
  | prev, c :: rest => p prev (c :: rest) || scanPrevF p (some c) rest

/-- Right word boundary: the next character (if any) is not a word character. -/
def rightBnd : Str → Bool
  | [] => true
  | d :: _ => !(isWordChar d)

/-- Substring occurrence: `w` is a prefix of some suffix of `c`. -/
def infixOfB (w c : Str) : Bool :=
  match c with
  | [] => w.isEmpty
  | _ :: rest => w.isPrefixOf c || infixOfB w rest

/-- `c.includes(w)`: plain substring test. -/
def mentionHit (c w : Str) : Bool := infixOfB w c

/-- `\bw\b` for a word `w` that starts and ends with word characters:
an occurrence of `w` with non-word characters (or the ends of the text) on
both sides. -/
def wordHit (w c : Str) : Bool :=
  scanPrevF (fun prev l => boundaryB prev && w.isPrefixOf l && rightBnd (l.drop w.length)) none c

/-- `\bw` (left word boundary only), e.g. `\bmem` or `\bfib\(`. -/
def leftBoundHit (w c : Str) : Bool :=
  scanPrevF (fun prev l => boundaryB prev && w.isPrefixOf l) none c

/-- `w\b` (right word boundary only), e.g. `memo\b`. -/
def rightBoundHit (w c : Str) : Bool :=
  scanPrevF (fun _ l => w.isPrefixOf l && rightBnd (l.drop w.length)) none c

/-- `\bname\s*\(`: a call of `name` (left word boundary, optional whitespace,
opening parenthesis). -/
def callHit (name c : Str) : Bool :=
  scanPrevF
    (fun prev l =>
      boundaryB prev && name.isPrefixOf l &&
        ((l.drop name.length).dropWhile isWS).head? == some '(')
    none c

/-- `return\s+\w+\s*\(` at one position (no word boundary before `return`). -/
def returnCallAt (l : Str) : Bool :=
  if ("return".data).isPrefixOf l then
    match (l.drop 6).head? with
    | some c =>
      if isWS c then
        let r1 := (l.drop 6).dropWhile isWS
        match r1.head? with
        | some d =>
          if isWordChar d then
            ((r1.dropWhile isWordChar).dropWhile isWS).head? == some '('
          else false
        | none => false
      else false
    | none => false
  else false

/-- `/return\s+\w+\s*\(/.test(code)` (tested on the sanitized text before
lower-casing, as in the source). -/
def returnCallHit (code : Str) : Bool :=
  scanPrevF (fun _ l => returnCallAt l) none code

/-- One known-algorithm catalog entry `{ name, time, space }`. -/
structure AlgoEntry where
  name : Str
  time : Str
  space : Str
deriving DecidableEq

/-- `if (b) results.push(e)` as a sublist. -/
def optE (b : Bool) (e : AlgoEntry) : List AlgoEntry := if b then [e] else []

/-- `mention('merge sort') || /\bmergesort\b/.test(c)` -/
def mergeSortHit (c : Str) : Bool :=
  mentionHit c ("merge sort".data) || wordHit ("mergesort".data) c

/-- `mention('quick sort') || /\bquicksort\b/.test(c)` -/
def quickSortHit (c : Str) : Bool :=
  mentionHit c ("quick sort".data) || wordHit ("quicksort".data) c

/-- `mention('heap sort') || /\bheapsort\b/.test(c)` -/
def heapSortHit (c : Str) : Bool :=
  mentionHit c ("heap sort".data) || wordHit ("heapsort".data) c

/-- `mention('bubble sort')` -/
def bubbleSortHit (c : Str) : Bool := mentionHit c ("bubble sort".data)

/-- `mention('insertion sort')` -/
def insertionSortHit (c : Str) : Bool := mentionHit c ("insertion sort".data)

/-- `mention('selection sort')` -/
def selectionSortHit (c : Str) : Bool := mentionHit c ("selection sort".data)

/-- `mention('counting sort')` -/
def countingSortHit (c : Str) : Bool := mentionHit c ("counting sort".data)

/-- `mention('radix sort')` -/
def radixSortHit (c : Str) : Bool := mentionHit c ("radix sort".data)

/-- `mention('binary search') || /\bbinarysearch\b/.test(c)` -/
def binarySearchHit (c : Str) : Bool :=
  mentionHit c ("binary search".data) || wordHit ("binarysearch".data) c

/-- `mention('linear search') || mention('sequential search')` -/
def linearSearchHit (c : Str) : Bool :=
  mentionHit c ("linear search".data) || mentionHit c ("sequential search".data)

/-- `/\bbfs\s*\(|\bbreadth[- ]first\b/.test(c) || (mention('queue') && (mention('visited') || mention('adj')))` -/
def bfsHit (c : Str) : Bool :=
  callHit ("bfs".data) c || wordHit ("breadth-first".data) c || wordHit ("breadth first".data) c ||
    (mentionHit c ("queue".data) && (mentionHit c ("visited".data) || mentionHit c ("adj".data)))

/-- `/\bdfs\s*\(|\bdepth[- ]first\b/.test(c) || (mention('visited') && (mention('stack') || /return\s+\w+\s*\(/.test(code)))` -/
def dfsHit (c code : Str) : Bool :=
  callHit ("dfs".data) c || wordHit ("depth-first".data) c || wordHit ("depth first".data) c ||
    (mentionHit c ("visited".data) && (mentionHit c ("stack".data) || returnCallHit code))

/-- `mention('dijkstra')` -/
def dijkstraHit (c : Str) : Bool := mentionHit c ("dijkstra".data)

/-- `/\bbellman[- ]?ford\b/.test(c) || mention('bellman ford')` -/
def bellmanFordHit (c : Str) : Bool :=
  wordHit ("bellmanford".data) c || wordHit ("bellman-ford".data) c ||
    wordHit ("bellman ford".data) c || mentionHit c ("bellman ford".data)

/-- `mention('kruskal')` -/
def kruskalHit (c : Str) : Bool := mentionHit c ("kruskal".data)

/-- `mention('prim')` -/
def primAlgoHit (c : Str) : Bool := mentionHit c ("prim".data)

/-- `/\bfloyd[- ]?warshall\b/.test(c) || mention('floyd warshall')` -/
def floydWarshallHit (c : Str) : Bool :=
  wordHit ("floydwarshall".data) c || wordHit ("floyd-warshall".data) c ||
    wordHit ("floyd warshall".data) c || mentionHit c ("floyd warshall".data)

/-- `mention('naive fibonacci') || /\bfib\(|\bfibonacci\b/.test(c)` -/
def fibHit (c : Str) : Bool :=
  mentionHit c ("naive fibonacci".data) || leftBoundHit ("fib(".data) c ||
    wordHit ("fibonacci".data) c

/-- `/\bmem|memo\b|\bcache\b|\bdp\b/.test(c)` -/
def memoHit (c : Str) : Bool :=
  leftBoundHit ("mem".data) c || rightBoundHit ("memo".data) c ||
    wordHit ("cache".data) c || wordHit ("dp".data) c

/-- `/\bdisjoint\b|\bunion[- ]find\b|\bunite\b/.test(c)` -/
def unionFindHit (c : Str) : Bool :=
  wordHit ("disjoint".data) c || wordHit ("union-find".data) c ||
    wordHit ("union find".data) c || wordHit ("unite".data) c

/-- `/\bmatrix chain\b/.test(c) || /\bmatrixchain\b/.test(c)` -/
def matrixChainHit (c : Str) : Bool :=
  wordHit ("matrix chain".data) c || wordHit ("matrixchain".data) c

/-- `/\bknapsack\b/.test(c)` -/
def knapsackHit (c : Str) : Bool := wordHit ("knapsack".data) c

/-- The sorting and searching pushes of `detectKnownAlgorithms`, in source
order. -/
def sortSearchResults (c : Str) : List AlgoEntry :=
  optE (mergeSortHit c) ⟨"Merge Sort".data, "O(n log n)".data, "O(n)".data⟩ ++
  optE (quickSortHit c)
    ⟨"Quick Sort".data, "O(n log n) average, O(n²) worst".data, "O(log n) average".data⟩ ++
  optE (heapSortHit c) ⟨"Heap Sort".data, "O(n log n)".data, "O(1)".data⟩ ++
  optE (bubbleSortHit c) ⟨"Bubble Sort".data, "O(n²)".data, "O(1)".data⟩ ++
  optE (insertionSortHit c) ⟨"Insertion Sort".data, "O(n²)".data, "O(1)".data⟩ ++
  optE (selectionSortHit c) ⟨"Selection Sort".data, "O(n²)".data, "O(1)".data⟩ ++
  optE (countingSortHit c) ⟨"Counting Sort".data, "O(n + k)".data, "O(k)".data⟩ ++
  optE (radixSortHit c) ⟨"Radix Sort".data, "O(nk)".data, "O(n + k)".data⟩ ++
  optE (binarySearchHit c) ⟨"Binary Search".data, "O(log n)".data, "O(1)".data⟩ ++
  optE (linearSearchHit c) ⟨"Linear Search".data, "O(n)".data, "O(1)".data⟩

/-- The graph-algorithm pushes of `detectKnownAlgorithms`, in source order
(`code` is the sanitized text before lower-casing, used by the DFS hint). -/
def graphResults (c code : Str) : List AlgoEntry :=
  optE (bfsHit c) ⟨"BFS".data, "O(V + E)".data, "O(V)".data⟩ ++
  optE (dfsHit c code) ⟨"DFS".data, "O(V + E)".data, "O(V)".data⟩ ++
  optE (dijkstraHit c) ⟨"Dijkstra\x27s algorithm".data, "O((V + E) log V)".data, "O(V + E)".data⟩ ++
  optE (bellmanFordHit c) ⟨"Bellman–Ford".data, "O(V × E)".data, "O(V)".data⟩ ++
  optE (kruskalHit c) ⟨"Kruskal\x27s algorithm".data, "O(E log E)".data, "O(V + E)".data⟩ ++
  optE (primAlgoHit c) ⟨"Prim\x27s algorithm".data, "O(E log V)".data, "O(V + E)".data⟩ ++
  optE (floydWarshallHit c) ⟨"Floyd–Warshall".data, "O(V³)".data, "O(V²)".data⟩

/-- The Fibonacci push: memoized if a memoization keyword co-occurs, naive
exponential otherwise. -/
def fibResults (c : Str) : List AlgoEntry :=
  optE (fibHit c)
    (if memoHit c then ⟨"Memoized Fibonacci (DP)".data, "O(n)".data, "O(n)".data⟩
     else ⟨"Naive Recursive Fibonacci".data, "O(2^n)".data, "O(n)".data⟩)

/-- The pushes that precede the union-find check, in source order. -/
def preResults (c code : Str) : List AlgoEntry :=
  sortSearchResults c ++ graphResults c code ++ fibResults c

/-- The union-find push, suppressed when a Kruskal entry is already present
in the results accumulated so far. -/
def ufResults (c : Str) (prev : List AlgoEntry) : List AlgoEntry :=
  optE (unionFindHit c && !(prev.any (fun r => infixOfB ("kruskal".data) (lowerL r.name))))
    ⟨"Union-Find usage".data, "Usually O(α(n) · (E log E)) for Kruskal context".data, "O(V)".data⟩

/-- The matrix-chain and knapsack pushes, in source order. -/
def tailResults (c : Str) : List AlgoEntry :=
  optE (matrixChainHit c) ⟨"Matrix Chain Multiplication (DP)".data, "O(n³)".data, "O(n²)".data⟩ ++
  optE (knapsackHit c) ⟨"Knapsack (DP typical)".data, "O(nW)".data, "O(W) or O(nW)".data⟩

/-- The full `results` array of `detectKnownAlgorithms`, in push order. -/
def algoResults (c code : Str) : List AlgoEntry :=
  let pre := preResults c code
  pre ++ ufResults c pre ++ tailResults c

/-- The non-null return value of `detectKnownAlgorithms`. -/
structure KnownResult where
  time : Str
  timeExplanation : Str
  space : Str
  spaceExplanation : Str
  matchNames : List Str
deriving DecidableEq

/-- `detectKnownAlgorithms`: lower-case the sanitized text, collect catalog
matches, and return the first match as primary (or `none`). -/
def detectKnownAlgorithms (code : Str) : Option KnownResult :=
  let c := lowerL code
  match algoResults c code with
  | [] => none
  | primary :: rest =>
    some
      { time := primary.time
        timeExplanation :=
          "Detected known algorithm or strong hint: ".data ++ primary.name ++ ".".data
        space := primary.space
        spaceExplanation := primary.space
        matchNames := (primary :: rest).map (fun r => r.name) }

/-- The three loop header shapes recognized by the loop scanner. -/
inductive LoopType where
  | forKind
  | whileKind
  | rangeforKind
deriving DecidableEq

/-- The iteration classification of a loop (`'log'`, `'n'`, `'unknown'`). -/
inductive IterKind where
  | log
  | n
  | unknown
deriving DecidableEq

/-- A raw loop occurrence `{ type, header, pos }` before classification. -/
structure RawLoop where
  type : LoopType
  header : Str
  pos : Nat
deriving DecidableEq

/-- A classified loop `{ type, header, pos, depth, iterKind }`. -/
structure LoopRecord where
  type : LoopType
  header : Str
  pos : Nat
  depth : Nat
  iterKind : IterKind
deriving DecidableEq

/-- Match `KW\s*\(([^)]*)\)` at the start of `l` for `KW` = `for`/`while`:
returns the captured header (everything up to the first `)`) and the suffix
after the match.  The capture class `[^)]*` cannot cross a `)`, so the match
fails only when no `)` follows the `(`. -/
def matchKwHeaderAt (kw : Str) (l : Str) : Option (Str × Str) :=
  if kw.isPrefixOf l then
    match (l.drop kw.length).dropWhile isWS with
    | '(' :: r2 =>
      match r2.dropWhile (fun ch => ch != ')') with
      | ')' :: r3 => some (r2.takeWhile (fun ch => ch != ')'), r3)
      | _ => none
    | _ => none
  else none

/-- Match `for\s*\([\w\s,]*:\s*[^)]*\)` at the start of `l`: the range-for
shape.  The recorded payload is the whole match `m[0]`. -/
def matchRangeForAt (l : Str) : Option (Str × Str) :=
  if ("for".data).isPrefixOf l then
    match (l.drop 3).dropWhile isWS with
    | '(' :: r2 =>
      match r2.dropWhile (fun ch => isWordChar ch || isWS ch || ch == ',') with
      | ':' :: r4 =>
        match (r4.dropWhile isWS).dropWhile (fun ch => ch != ')') with
        | ')' :: r7 => some (l.take (l.length - r7.length), r7)
        | _ => none
      | _ => none
    | _ => none
  else none

/-- Global scan of `regex.exec` loops: at each position try the matcher; on a
match record the payload with the match position and resume right after the
match, otherwise advance one character.  `i` is the current position, the
fuel is the length of the remaining text plus one. -/
def scanPosF (m : Str → Option (Str × Str)) : Nat → Str → Nat → List (Str × Nat)
  | 0, _, _ => []
  | _ + 1, [], _ => []
  | fuel + 1, c :: rest, i =>
    match m (c :: rest) with
    | some (payload, r) =>
      (payload, i) :: scanPosF m fuel r (i + ((c :: rest).length - r.length))
    | none => scanPosF m fuel rest (i + 1)

/-- The `loops` array of `detectLoopsAndNesting`: all `for(...)` matches, then
all `while(...)` matches, then all range-for matches, in scan order. -/
def rawLoops (code : Str) : List RawLoop :=
  ((scanPosF (matchKwHeaderAt ("for".data)) (code.length + 1) code 0).map
      (fun x => RawLoop.mk LoopType.forKind x.1 x.2)) ++
  ((scanPosF (matchKwHeaderAt ("while".data)) (code.length + 1) code 0).map
      (fun x => RawLoop.mk LoopType.whileKind x.1 x.2)) ++
  ((scanPosF matchRangeForAt (code.length + 1) code 0).map
      (fun x => RawLoop.mk LoopType.rangeforKind x.1 x.2))

/-- Collect the maximal word-character runs of `l`, in order (`cur` is the
run currently being read, in order). -/
def identsAux (cur : Option Str) : Str → List Str
  | [] =>
    match cur with
    | some run => [run]
    | none => []
  | c :: rest =>
    if isWordChar c then
      match cur with
      | some run => identsAux (some (run ++ [c])) rest
      | none => identsAux (some [c]) rest
    else
      match cur with
      | some run => run :: identsAux none rest
      | none => identsAux none rest

/-- `[...header.matchAll(/\b([A-Za-z_]\w*)\b/g)].map(x => x[1])`: the maximal
word runs that begin with a letter or underscore (a run that starts with a
digit has no word boundary inside it, so it yields no match at all). -/
def identsIn (l : Str) : List Str :=
  (identsAux none l).filter (fun run =>
    match run with
    | c :: _ => isAlphaU c
    | [] => false)

/-- Brace-balance scan after an opening `{` (already consumed): returns the
text strictly between the brace and its matching `}`, or `none` if the
balance never returns to zero. -/
def scanBraces : Nat → Str → Option Str
  | _, [] => none
  | d, c :: rest =>
    if c == '{' then (scanBraces (d + 1) rest).map (fun b => c :: b)
    else if c == '}' then
      if d == 0 then some []
      else (scanBraces (d - 1) rest).map (fun b => c :: b)
    else (scanBraces d rest).map (fun b => c :: b)

/-- `code.indexOf('{', pos)` followed by the brace-balance body extraction:
the body of the block whose `{` is the first one at or after `pos`. -/
def bodyAt (code : Str) (pos : Nat) : Option Str :=
  match (code.drop pos).dropWhile (fun ch => ch != '{') with
  | '{' :: rest => scanBraces 0 rest
  | _ => none

/-- Skip whitespace (`\s*`). -/
def chompWS (l : Str) : Str := l.dropWhile isWS

/-- Require one literal character. -/
def chompChar (ch : Char) : Str → Option Str
  | c :: rest => if c == ch then some rest else none
  | [] => none

/-- Require a literal string. -/
def chompLit (w : Str) (l : Str) : Option Str :=
  if w.isPrefixOf l then some (l.drop w.length) else none

/-- Greedy identifier `[A-Za-z_]\w*`: the maximal word run, which must start
with a letter or underscore. -/
def identAt (l : Str) : Option (Str × Str) :=
  match l with
  | c :: _ =>
    if isAlphaU c then some (l.takeWhile isWordChar, l.dropWhile isWordChar) else none
  | [] => none

/-- `(\w+)\s*=\s*\(\s*([A-Za-z_]\w*)\s*\+\s*([A-Za-z_]\w*)\s*\)\s*\/\s*2\s*;`
at one position: the midpoint-assignment shape of the binary-search idiom,
returning the captured (mid, left, right) variable names. -/
def midCalcAt (l : Str) : Option (Str × Str × Str) :=
  let w := l.takeWhile isWordChar
  if w.isEmpty then none
  else
    (do
      let r1 ← chompChar '=' (chompWS (l.dropWhile isWordChar))
      let r2 ← chompChar '(' (chompWS r1)
      let (leftVar, r3) ← identAt (chompWS r2)
      let r4 ← chompChar '+' (chompWS r3)
      let (rightVar, r5) ← identAt (chompWS r4)
      let r6 ← chompChar ')' (chompWS r5)
      let r7 ← chompChar '/' (chompWS r6)
      let r8 ← chompChar '2' (chompWS r7)
      let _ ← chompChar ';' (chompWS r8)
      pure (w, leftVar, rightVar))

/-- `body.match(midCalcRegex)`: the leftmost midpoint-assignment match. -/
def midCalcScan : Str → Option (Str × Str × Str)
  | [] => none
  | c :: rest =>
    match midCalcAt (c :: rest) with
    | some x => some x
    | none => midCalcScan rest

/-- The dynamic regex `\bVAR\b\s*=\s*MID\s*OP\s*1` (with `OP` being `+` for
the left bound and `-` for the right bound) tested against the loop body. -/
def updateHit (v mid : Str) (op : Char) (body : Str) : Bool :=
  scanPrevF
    (fun prev l =>
      boundaryB prev &&
        ((do
          let r1 ← chompLit v l
          let _ ← if rightBnd r1 then some () else none
          let r2 ← chompChar '=' (chompWS r1)
          let r3 ← chompLit mid (chompWS r2)
          let r4 ← chompChar op (chompWS r3)
          let _ ← chompChar '1' (chompWS r4)
          pure ()).isSome))
    none body

/-- `\bVAR\s*=\s*VAR\s*\/\s*2\b` at one position. -/
def divPat1At (v l : Str) : Bool :=
  (do
    let r1 ← chompLit v l
    let r2 ← chompChar '=' (chompWS r1)
    let r3 ← chompLit v (chompWS r2)
    let r4 ← chompChar '/' (chompWS r3)
    let r5 ← chompChar '2' (chompWS r4)
    let _ ← if rightBnd r5 then some () else none
    pure ()).isSome

/-- `\bVAR\s*>>=\s*1\b` at one position. -/
def divPat2At (v l : Str) : Bool :=
  (do
    let r1 ← chompLit v l
    let r2 ← chompLit (">>=".data) (chompWS r1)
    let r3 ← chompChar '1' (chompWS r2)
    let _ ← if rightBnd r3 then some () else none
    pure ()).isSome

/-- `\bVAR\s*=\s*Math\.FN\(\s*VAR\s*\/\s*2\s*\)` at one position, for
`FN` = `floor` / `ceil`. -/
def divPatMathAt (fn : Str) (v l : Str) : Bool :=
  (do
    let r1 ← chompLit v l
    let r2 ← chompChar '=' (chompWS r1)
    let r3 ← chompLit fn (chompWS r2)
    let r4 ← chompLit v (chompWS r3)
    let r5 ← chompChar '/' (chompWS r4)
    let r6 ← chompChar '2' (chompWS r5)
    let _ ← chompChar ')' (chompWS r6)
    pure ()).isSome

/-- `divBy2Patterns.some(re => re.test(body))`: the four halving-update
patterns for the condition variable. -/
def divBy2Hit (v body : Str) : Bool :=
  scanPrevF (fun prev l => boundaryB prev && divPat1At v l) none body ||
  scanPrevF (fun prev l => boundaryB prev && divPat2At v l) none body ||
  scanPrevF (fun prev l => boundaryB prev && divPatMathAt ("Math.floor(".data) v l) none body ||
  scanPrevF (fun prev l => boundaryB prev && divPatMathAt ("Math.ceil(".data) v l) none body

/-- One alternative of `/\/= *2|\/2\b|\*\= *2|<<=|>>=/` at one position
(` *` is a run of literal spaces, not general whitespace). -/
def headerLogAt (l : Str) : Bool :=
  (match chompLit ("/=".data) l with
   | some r => (r.dropWhile (fun ch => ch == ' ')).head? == some '2'
   | none => false) ||
  (match chompLit ("/2".data) l with
   | some r => rightBnd r
   | none => false) ||
  (match chompLit ("*=".data) l with
   | some r => (r.dropWhile (fun ch => ch == ' ')).head? == some '2'
   | none => false) ||
  ("<<=".data).isPrefixOf l || (">>=".data).isPrefixOf l

/-- `/\/= *2|\/2\b|\*\= *2|<<=|>>=/.test(header)`. -/
def headerLogHit (h : Str) : Bool := scanPrevF (fun _ l => headerLogAt l) none h

/-- `/length|size|len/.test(header.toLowerCase())`. -/
def lenSizeHit (h : Str) : Bool :=
  infixOfB ("length".data) h || infixOfB ("size".data) h || infixOfB ("len".data) h

/-- A `+` or `-` character. -/
def isPM (ch : Char) : Bool := ch == '+' || ch == '-'

/-- `.*[\+\-]{2}` ahead of the current position: two adjacent `+`/`-`
characters reachable without crossing a line terminator (regex `.`). -/
def pmPairAhead : Str → Bool
  | a :: b :: rest => (isPM a && isPM b) || (!(isNL a) && pmPairAhead (b :: rest))
  | _ => false

/-- The increment-with-comparison test on the header: the regex alternation
`(<|<=|>|>=).*[\+\-]{2}` or `(<|<=|>|>=).*\+\+` or `(<|<=|>|>=).*\-\-` — a
relational operator followed on the same line by two adjacent `+` or `-`
characters (the first alternative subsumes the other two). -/
def relIncHit (h : Str) : Bool :=
  scanPrevF
    (fun _ l =>
      match l with
      | c :: rest => (c == '<' || c == '>') && pmPairAhead rest
      | [] => false)
    none h

/-- Classification of one raw loop into a `LoopRecord`: brace-count depth,
binary-search idiom, halving updates of the condition variable, then the
header-shape checks, exactly in source order. -/
def classifyLoop (code : Str) (lp : RawLoop) : LoopRecord :=
  let before := code.take lp.pos
  let depth := before.count '{' - before.count '}'
  let header := lp.header
  let varsInCond := identsIn header
  let condVar := varsInCond.head?
  let body := (bodyAt code lp.pos).getD []
  let isBinarySearch :=
    match midCalcScan body with
    | some (midVar, leftVar, rightVar) =>
      varsInCond.contains leftVar && varsInCond.contains rightVar &&
        (updateHit leftVar midVar '+' body || updateHit rightVar midVar '-' body)
    | none => false
  let iterKind0 :=
    if isBinarySearch then IterKind.log
    else
      match condVar with
      | some v => if divBy2Hit v body then IterKind.log else IterKind.unknown
      | none => IterKind.unknown
  let iterKind :=
    if iterKind0 != IterKind.log then
      if headerLogHit header then IterKind.log
      else if header.contains ':' then IterKind.n
      else if lenSizeHit (lowerL header) then IterKind.n
      else if relIncHit header then IterKind.n
      else iterKind0
    else iterKind0
  { type := lp.type, header := header, pos := lp.pos, depth := depth, iterKind := iterKind }

/-- Count of linear-classified loops at depth `d` (the `nLoopsAtDepth`
dictionary entry, defaulting to zero). -/
def nCountAt (infos : List LoopRecord) (d : Nat) : Nat :=
  (infos.filter (fun li => decide (li.iterKind = IterKind.n) && decide (li.depth = d))).length

/-- `loopInfos.reduce((a, b) => Math.max(a, b.depth), 0)`. -/
def maxDepthOf (infos : List LoopRecord) : Nat :=
  infos.foldl (fun a b => Nat.max a b.depth) 0

/-- The `maxNestedN` aggregation: the largest per-depth count of linear
loops over depths `0..maxDepth`. -/
def computeMaxNestedN (infos : List LoopRecord) : Nat :=
  (List.range (maxDepthOf infos + 1)).foldl (fun acc d => Nat.max acc (nCountAt infos d)) 0

/-- The aggregate result of `detectLoopsAndNesting`. -/
structure LoopsInfo where
  loopCount : Nat
  maxDepth : Nat
  maxNestedN : Nat
  logDetected : Bool
  loopInfos : List LoopRecord
deriving DecidableEq

/-- `detectLoopsAndNesting`: scan for the three loop shapes, classify each,
and aggregate. -/
def detectLoopsAndNesting (code : Str) : LoopsInfo :=
  let loops := rawLoops code
  let loopInfos := loops.map (classifyLoop code)
  { loopCount := loops.length
    maxDepth := maxDepthOf loopInfos
    maxNestedN := computeMaxNestedN loopInfos
    logDetected := loopInfos.any (fun l => decide (l.iterKind = IterKind.log))
    loopInfos := loopInfos }

/-- Match `KW\s+([A-Za-z_]\w*)\s*\(` at the start of `l` for the declaration
keyword `KW` = `function` / `def` (no word boundary before the keyword, as in
the source regexes): returns the captured name and the suffix after the `(`. -/
def matchDeclKwAt (kw : Str) (l : Str) : Option (Str × Str) :=
  if kw.isPrefixOf l then
    match (l.drop kw.length).head? with
    | some c =>
      if isWS c then
        match identAt ((l.drop kw.length).dropWhile isWS) with
        | some (name, r2) =>
          match chompChar '(' (chompWS r2) with
          | some r3 => some (name, r3)
          | none => none
        | none => none
      else none
    | none => none
  else none

/-- The character class of the C-style return-type token:
`[\w:<>\s\*&]` (word characters, `:`, angle brackets, whitespace, `*`, `&`). -/
def isW2 (ch : Char) : Bool :=
  isWordChar ch || ch == ':' || ch == '<' || ch == '>' || isWS ch || ch == '*' || ch == '&'

/-- The tail of the C-style declaration regex after the return-type token:
`\s+([A-Za-z_]\w*)\s*\([^)]*\)\s*\{`, returning the captured name and the
suffix after the opening brace. -/
def cstyleTailAt (l : Str) : Option (Str × Str) :=
  match l.head? with
  | some c =>
    if isWS c then
      match identAt (l.dropWhile isWS) with
      | some (name, r2) =>
        match chompChar '(' (chompWS r2) with
        | some r3 =>
          match r3.dropWhile (fun ch => ch != ')') with
          | ')' :: r5 =>
            match chompChar '{' (chompWS r5) with
            | some r6 => some (name, r6)
            | none => none
          | _ => none
        | none => none
      | none => none
    else none
  | none => none

/-- Backtracking over the greedy return-type token `[\w:<>\s\*&]+`: extend the
token as far as possible first (the engine's greedy order), and on failure
retreat one character at a time, trying the declaration tail at each stop. -/
def cgrow : Str → Option (Str × Str)
  | [] => none
  | c :: rest =>
    match (if isW2 c then cgrow rest else none) with
    | some x => some x
    | none => cstyleTailAt (c :: rest)

/-- Match the C-style declaration regex
`(?:[A-Za-z_][\w:<>\s\*&]+)\s+([A-Za-z_]\w*)\s*\([^)]*\)\s*\{` at the start
of `l`: a first letter/underscore, at least one more token character, then
the tail — with the greedy/backtracking split between token, whitespace and
name that the regex engine performs. -/
def cStyleAt : Str → Option (Str × Str)
  | c0 :: c1 :: rest => if isAlphaU c0 && isW2 c1 then cgrow rest else none
  | _ => none

/-- The `fnDecls` array of `detectRecursion`: all `function` declarations,
then all `def` declarations, then all C-style declarations, each recorded as
(name, match position). -/
def fnDecls (code : Str) : List (Str × Nat) :=
  scanPosF (matchDeclKwAt ("function".data)) (code.length + 1) code 0 ++
  scanPosF (matchDeclKwAt ("def".data)) (code.length + 1) code 0 ++
  scanPosF cStyleAt (code.length + 1) code 0

/-- Match the dynamic regex `\bNAME\s*\(` at the start of `l` (the boundary
check is done by the caller): returns the suffix after the `(`. -/
def callMatchAt (name : Str) (l : Str) : Option Str :=
  if name.isPrefixOf l then
    match (l.drop name.length).dropWhile isWS with
    | '(' :: r => some r
    | _ => none
  else none

/-- `(body.match(new RegExp('\\b' + name + '\\s*\\(', 'g')) || []).length`:
count the non-overlapping occurrences of `\bNAME\s*\(`, resuming after each
match. -/
def countCallsF (name : Str) : Nat → Option Char → Str → Nat
  | 0, _, _ => 0
  | _ + 1, _, [] => 0
  | fuel + 1, prev, c :: rest =>
    if boundaryB prev then
      match callMatchAt name (c :: rest) with
      | some r => 1 + countCallsF name fuel (some '(') r
      | none => countCallsF name fuel (some c) rest
    else countCallsF name fuel (some c) rest

/-- One recursion record `{ name, calls }`. -/
structure RecFn where
  name : Str
  calls : Nat
deriving DecidableEq

/-- The result of `detectRecursion`. -/
structure RecursionInfo where
  found : Bool
  functions : List RecFn
deriving DecidableEq

/-- `detectRecursion`: find function declarations, extract each body by brace
balance (skipping declarations with no `{` or an unterminated body), count
self-calls, and keep the functions with at least one self-call. -/
def detectRecursion (code : Str) : RecursionInfo :=
  let recursion :=
    (fnDecls code).filterMap (fun f =>
      match bodyAt code f.2 with
      | some body =>
        let calls := countCallsF f.1 (body.length + 1) none body
        if 0 < calls then some (RecFn.mk f.1 calls) else none
      | none => none)
  { found := decide (0 < recursion.length), functions := recursion }

/-- The diagnostics (`details`) object of a verdict: empty on the trivial
branch, the match names on the known-pattern branch, the raw structural
findings otherwise. -/
inductive Details where
  | empty
  | known (matchNames : List Str)
  | structural (loopsInfo : LoopsInfo) (recursionInfo : RecursionInfo)
deriving DecidableEq

/-- The `ComplexityVerdict` returned by `analyzeComplexity`. -/
structure Verdict where
  time : Str
  timeExplanation : Str
  space : Str
  spaceExplanation : Str
  details : Details
deriving DecidableEq

/-- The nested same-array double-loop idiom check of the decision engine:
some `for` loop record directly containing (depth exactly one greater)
another `for` record, both headers mentioning `length`/`size`/`len`. -/
def hasNestedSameArray (infos : List LoopRecord) : Bool :=
  infos.any (fun outer =>
    infos.any (fun inner =>
      decide (inner.depth = outer.depth + 1) &&
        decide (inner.type = LoopType.forKind) && decide (outer.type = LoopType.forKind) &&
        lenSizeHit (lowerL outer.header) && lenSizeHit (lowerL inner.header)))

/-- The time bound and explanation chosen inside the loop branch of the
decision engine: logarithmic (alone or with nested linear loops), the nested
same-array idiom, the polynomial case, the single loop, and the fall-through
that keeps the O(1) default text. -/
def loopTimeText (loopsInfo : LoopsInfo) : Str × Str :=
  if loopsInfo.logDetected then
    if loopsInfo.maxNestedN == 0 then
      ("O(log n)".data,
       "Detected logarithmic loop pattern (divide-by-two behavior).".data)
    else
      ("O(n^".data ++ (Nat.repr loopsInfo.maxNestedN).data ++ " log n)".data,
       "Detected ".data ++ (Nat.repr loopsInfo.maxNestedN).data ++
         " nested loops with logarithmic behavior.".data)
  else if hasNestedSameArray loopsInfo.loopInfos then
    ("O(n²)".data, "Detected two nested loops iterating over same array.".data)
  else if 2 ≤ loopsInfo.maxNestedN then
    ("O(n^".data ++ (Nat.repr loopsInfo.maxNestedN).data ++ ")".data,
     "Detected ".data ++ (Nat.repr loopsInfo.maxNestedN).data ++
       " nested loops iterating over input size.".data)
  else if loopsInfo.maxNestedN == 1 then
    ("O(n)".data, "Detected single loop iterating over input size.".data)
  else
    ("O(1)".data, "No loops or recursion detected (heuristic).".data)

/-- The structural part of the decision engine, reached when no known
pattern matched: recursion first (multiple self-calls, recursion with loops,
single recursion), then loops (via `loopTimeText`, with space always O(n)),
then the O(1) default.  In the loop branch the time keeps the O(1) default
text when no sub-rule applies while the space is still set to O(n), exactly
as in the source. -/
def structuralVerdict (loopsInfo : LoopsInfo) (recursionInfo : RecursionInfo) : Verdict :=
  if recursionInfo.found then
    if recursionInfo.functions.any (fun f => 1 < f.calls) then
      { time := "O(2^n) (possible exponential recursive branching)".data
        timeExplanation :=
          "Recursion with multiple recursive calls detected — likely exponential.".data
        space := "O(n) (recursion stack)".data
        spaceExplanation := "Recursion stack grows with depth.".data
        details := Details.structural loopsInfo recursionInfo }
    else if 0 < loopsInfo.loopCount then
      { time := "O(n log n) or O(n * (loop cost))".data
        timeExplanation :=
          "Single recursion detected together with loops — heuristic estimate O(n log n).".data
        space := "O(n + additional)".data
        spaceExplanation := "Recursion stack + container usage.".data
        details := Details.structural loopsInfo recursionInfo }
    else
      { time := "O(n) (single recursion)".data
        timeExplanation := "Single recursion detected — typically linear.".data
        space := "O(n)".data
        spaceExplanation := "Recursion stack.".data
        details := Details.structural loopsInfo recursionInfo }
  else if 0 < loopsInfo.loopCount then
    let tp := loopTimeText loopsInfo
    { time := tp.1
      timeExplanation := tp.2
      space := "O(n)".data
      spaceExplanation := "Output array grows with input size.".data
      details := Details.structural loopsInfo recursionInfo }
  else
    { time := "O(1)".data
      timeExplanation := "No loops or recursion detected (heuristic).".data
      space := "O(1)".data
      spaceExplanation := "No obvious dynamic allocations detected.".data
      details := Details.structural loopsInfo recursionInfo }

/-- `analyzeComplexity`: the decision engine.  Empty or whitespace-only
input yields the fixed O(1) verdict; a known-pattern match yields the
primary match's bounds; otherwise the loop and recursion findings are
combined by `structuralVerdict`. -/
def analyzeComplexity (rawCode : Str) : Verdict :=
  if rawCode.all isWS then
    { time := "O(1)".data
      timeExplanation := "Empty or trivial code.".data
      space := "O(1)".data
      spaceExplanation := "No allocations detected.".data
      details := Details.empty }
  else
    let cleaned := stripCommentsAndStrings rawCode
    match detectKnownAlgorithms cleaned with
    | some known =>
      { time := known.time
        timeExplanation := known.timeExplanation
        space := known.space
        spaceExplanation :=
          if known.spaceExplanation.isEmpty then known.space else known.spaceExplanation
        details := Details.known known.matchNames }
    | none => structuralVerdict (detectLoopsAndNesting cleaned) (detectRecursion cleaned)

lemma mem_optE {r e : AlgoEntry} {b : Bool} (h : r ∈ optE b e) : r = e := by
  unfold optE at h
  split at h
  · simpa using h
  · simp at h

lemma algoResults_fields {c code : Str} {r : AlgoEntry} (h : r ∈ algoResults c code) :
    r.time ≠ [] ∧ r.space ≠ [] := by
  simp only [algoResults, preResults, sortSearchResults, graphResults, fibResults,
    ufResults, tailResults] at h
  repeat' (rcases List.mem_append.mp h with h | h)
  all_goals
    first
      | (rw [mem_optE h]; exact ⟨by decide, by decide⟩)
      | (rw [mem_optE h]; split <;> exact ⟨by decide, by decide⟩)

lemma detectKnown_some_fields {code : Str} {k : KnownResult}
    (h : detectKnownAlgorithms code = some k) :
    k.time ≠ [] ∧ k.timeExplanation ≠ [] ∧ k.space ≠ [] ∧ k.spaceExplanation ≠ [] := by
  simp only [detectKnownAlgorithms] at h
  cases hres : algoResults (lowerL code) code with
  | nil => rw [hres] at h; simp at h
  | cons primary rest =>
    rw [hres] at h
    simp only [Option.some.injEq] at h
    obtain ⟨ht, hs⟩ :=
      algoResults_fields (show primary ∈ algoResults (lowerL code) code by
        rw [hres]; exact List.mem_cons_self primary rest)
    subst h
    refine ⟨ht, ?_, hs, hs⟩
    intro hc
    exact absurd (List.append_eq_nil.mp (List.append_eq_nil.mp hc).1).1 (by decide)

lemma detectKnown_of_cons {code : Str} {e : AlgoEntry} {tail : List AlgoEntry}
    (h : algoResults (lowerL code) code = e :: tail) :
    detectKnownAlgorithms code =
      some
        ⟨e.time, "Detected known algorithm or strong hint: ".data ++ e.name ++ ".".data,
          e.space, e.space, (e :: tail).map (fun r => r.name)⟩ := by
  simp only [detectKnownAlgorithms, h]

lemma detectLoops_loopCount_eq (code : Str) :
    (detectLoopsAndNesting code).loopCount = (detectLoopsAndNesting code).loopInfos.length := by
  simp [detectLoopsAndNesting]

lemma detectLoops_maxNestedN_eq (code : Str) :
    (detectLoopsAndNesting code).maxNestedN =
      computeMaxNestedN (detectLoopsAndNesting code).loopInfos := rfl

lemma detectLoops_logDetected_eq (code : Str) :
    (detectLoopsAndNesting code).logDetected =
      (detectLoopsAndNesting code).loopInfos.any (fun l => decide (l.iterKind = IterKind.log)) :=
  rfl

lemma foldl_max_le {f : Nat → Nat} {c : Nat} :
    ∀ (l : List Nat) (acc : Nat), acc ≤ c → (∀ i ∈ l, f i ≤ c) →
      l.foldl (fun a i => Nat.max a (f i)) acc ≤ c := by
  intro l
  induction l with
  | nil => intro acc hacc _; simpa using hacc
  | cons x xs ih =>
    intro acc hacc hall
    simp only [List.foldl_cons]
    refine ih _ ?_ (fun i hi => hall i (List.mem_cons_of_mem x hi))
    exact Nat.max_le.mpr ⟨hacc, hall x (List.mem_cons_self x xs)⟩

lemma le_foldl_max {f : Nat → Nat} :
    ∀ (l : List Nat) (acc : Nat), (∀ i ∈ l, f i ≤ l.foldl (fun a j => Nat.max a (f j)) acc) ∧
      acc ≤ l.foldl (fun a j => Nat.max a (f j)) acc := by
  intro l
  induction l with
  | nil => intro acc; exact ⟨fun i hi => absurd hi (List.not_mem_nil i), Nat.le_refl acc⟩
  | cons x xs ih =>
    intro acc
    simp only [List.foldl_cons]
    obtain ⟨ih1, ih2⟩ := ih (Nat.max acc (f x))
    refine ⟨?_, Nat.le_trans (Nat.le_max_left acc (f x)) ih2⟩
    intro i hi
    rcases List.mem_cons.mp hi with rfl | hi2
    · exact Nat.le_trans (Nat.le_max_right acc (f i)) ih2
    · exact ih1 i hi2

lemma hasNested_iff {infos : List LoopRecord} :
    hasNestedSameArray infos = true ↔
      ∃ outer ∈ infos, ∃ inner ∈ infos,
        inner.depth = outer.depth + 1 ∧ inner.type = LoopType.forKind ∧
          outer.type = LoopType.forKind ∧ lenSizeHit (lowerL outer.header) = true ∧
            lenSizeHit (lowerL inner.header) = true := by
  simp [hasNestedSameArray, List.any_eq_true, and_assoc]

lemma append_ne_nil_left {a b : Str} (ha : a ≠ []) : a ++ b ≠ [] :=
  fun hc => ha (List.append_eq_nil.mp hc).1

lemma loopTimeText_ne_nil (li : LoopsInfo) :
    (loopTimeText li).1 ≠ [] ∧ (loopTimeText li).2 ≠ [] := by
  unfold loopTimeText
  repeat' split
  all_goals refine ⟨?_, ?_⟩
  all_goals
    first
      | decide
      | exact fun hc => absurd (List.append_eq_nil.mp (List.append_eq_nil.mp hc).1).1 (by decide)

lemma structuralVerdict_valid (li : LoopsInfo) (ri : RecursionInfo) :
    (structuralVerdict li ri).time ≠ [] ∧ (structuralVerdict li ri).timeExplanation ≠ [] ∧
      (structuralVerdict li ri).space ≠ [] ∧ (structuralVerdict li ri).spaceExplanation ≠ [] := by
  unfold structuralVerdict
  repeat' split
  all_goals refine ⟨?_, ?_, ?_, ?_⟩
  all_goals dsimp only
  all_goals
    first
      | decide
      | exact (loopTimeText_ne_nil _).1
      | exact (loopTimeText_ne_nil _).2

/-- Claim C1: for every input string — including non-code text, binary-looking
content, extremely short fragments, and text with unterminated comments,
strings or braces — `analyzeComplexity` returns a complete, structurally
valid verdict: all four bound/explanation fields are populated (nonempty).
The embedding is a total computable function, so "never throws" holds by
construction (every scan, brace-balance pass and dynamically built
variable-name pattern is a total scanner over arbitrary text). -/
theorem analyze_total_structurally_valid (s : Str) :
    (analyzeComplexity s).time ≠ [] ∧ (analyzeComplexity s).timeExplanation ≠ [] ∧
      (analyzeComplexity s).space ≠ [] ∧ (analyzeComplexity s).spaceExplanation ≠ [] := by
  unfold analyzeComplexity
  split
  · exact ⟨by decide, by decide, by decide, by decide⟩
  · dsimp only
    split
    · next k hk =>
      obtain ⟨h1, h2, h3, h4⟩ := detectKnown_some_fields hk
      refine ⟨h1, h2, h3, ?_⟩
      dsimp only
      split
      · exact h3
      · exact h4
    · exact structuralVerdict_valid _ _

/-- Claim C2: `analyzeComplexity` is a pure, deterministic function of its
input — any two verdicts obtained from the same input string agree on all
five fields.  In this embedding the analyzer is a function with no ambient
state, so two calls on the same text are the same value. -/
theorem analyze_deterministic (s : Str) (v1 v2 : Verdict)
    (h1 : v1 = analyzeComplexity s) (h2 : v2 = analyzeComplexity s) :
    v1.time = v2.time ∧ v1.timeExplanation = v2.timeExplanation ∧ v1.space = v2.space ∧
      v1.spaceExplanation = v2.spaceExplanation ∧ v1.details = v2.details := by
  subst h1; subst h2; exact ⟨rfl, rfl, rfl, rfl, rfl⟩

theorem analyze_deterministic_witness :
    (analyzeComplexity ("x = 1".data)).time = (analyzeComplexity ("x = 1".data)).time ∧
      (analyzeComplexity ("x = 1".data)).timeExplanation =
        (analyzeComplexity ("x = 1".data)).timeExplanation ∧
      (analyzeComplexity ("x = 1".data)).space = (analyzeComplexity ("x = 1".data)).space ∧
      (analyzeComplexity ("x = 1".data)).spaceExplanation =
        (analyzeComplexity ("x = 1".data)).spaceExplanation ∧
      (analyzeComplexity ("x = 1".data)).details = (analyzeComplexity ("x = 1".data)).details :=
  analyze_deterministic ("x = 1".data) _ _ rfl rfl

lemma optE_false {e : AlgoEntry} : optE false e = [] := rfl

lemma optE_true {e : AlgoEntry} : optE true e = [e] := rfl

lemma analyze_known {s : Str} (hws : s.all isWS = false) {k : KnownResult}
    (hk : detectKnownAlgorithms (stripCommentsAndStrings s) = some k) :
    analyzeComplexity s =
      ⟨k.time, k.timeExplanation, k.space,
        if k.spaceExplanation.isEmpty then k.space else k.spaceExplanation,
        Details.known k.matchNames⟩ := by
  unfold analyzeComplexity
  rw [hws]
  dsimp only
  rw [hk]
  rfl

lemma analyze_structural {s : Str} (hws : s.all isWS = false)
    (hk : detectKnownAlgorithms (stripCommentsAndStrings s) = none) :
    analyzeComplexity s =
      structuralVerdict (detectLoopsAndNesting (stripCommentsAndStrings s))
        (detectRecursion (stripCommentsAndStrings s)) := by
  unfold analyzeComplexity
  rw [hws]
  dsimp only
  rw [hk]
  rfl

/-- Claim C3 counterexample: the input `merge sort dijkstra` contains the
substring "dijkstra" outside comments and strings, yet the verdict's time is
the Merge Sort bound "O(n log n)", not "O((V + E) log V)": the catalog is
scanned in a fixed order and the first match becomes the verdict, so the
claim's "regardless of any other algorithm names present" fails. -/
theorem dijkstra_precedence_cex :
    dijkstraHit (lowerL (stripCommentsAndStrings ("merge sort dijkstra".data))) = true ∧
      (analyzeComplexity ("merge sort dijkstra".data)).time = "O(n log n)".data ∧
      (analyzeComplexity ("merge sort dijkstra".data)).time ≠ "O((V + E) log V)".data :=
  ⟨by decide, by decide, by decide⟩

/-- Claim C3 (amended): for every input string containing "dijkstra" outside
comments and string literals and matching no earlier catalog entry (the eight
sort names, the two search names, the BFS hints, the DFS hints), the
returned verdict's time field equals "O((V + E) log V)", regardless of any
surrounding loop or recursion structure. -/
theorem dijkstra_first_match_time (s : Str) (hws : s.all isWS = false)
    (hdij : dijkstraHit (lowerL (stripCommentsAndStrings s)) = true)
    (h1 : mergeSortHit (lowerL (stripCommentsAndStrings s)) = false)
    (h2 : quickSortHit (lowerL (stripCommentsAndStrings s)) = false)
    (h3 : heapSortHit (lowerL (stripCommentsAndStrings s)) = false)
    (h4 : bubbleSortHit (lowerL (stripCommentsAndStrings s)) = false)
    (h5 : insertionSortHit (lowerL (stripCommentsAndStrings s)) = false)
    (h6 : selectionSortHit (lowerL (stripCommentsAndStrings s)) = false)
    (h7 : countingSortHit (lowerL (stripCommentsAndStrings s)) = false)
    (h8 : radixSortHit (lowerL (stripCommentsAndStrings s)) = false)
    (h9 : binarySearchHit (lowerL (stripCommentsAndStrings s)) = false)
    (h10 : linearSearchHit (lowerL (stripCommentsAndStrings s)) = false)
    (h11 : bfsHit (lowerL (stripCommentsAndStrings s)) = false)
    (h12 : dfsHit (lowerL (stripCommentsAndStrings s)) (stripCommentsAndStrings s) = false) :
    (analyzeComplexity s).time = "O((V + E) log V)".data := by
  obtain ⟨tail, hres⟩ :
      ∃ tail, algoResults (lowerL (stripCommentsAndStrings s)) (stripCommentsAndStrings s) =
        AlgoEntry.mk ("Dijkstra\x27s algorithm".data) ("O((V + E) log V)".data)
          ("O(V + E)".data) :: tail := by
    simp only [algoResults, preResults, sortSearchResults, graphResults, fibResults,
      h1, h2, h3, h4, h5, h6, h7, h8, h9, h10, h11, h12, hdij, optE_false, optE_true,
      List.nil_append, List.cons_append, List.append_assoc]
    exact ⟨_, rfl⟩
  have hk := detectKnown_of_cons hres
  rw [analyze_known hws hk]

theorem dijkstra_first_match_time_witness :
    (analyzeComplexity ("dijkstra".data)).time = "O((V + E) log V)".data :=
  dijkstra_first_match_time ("dijkstra".data) (by decide) (by decide) (by decide) (by decide)
    (by decide) (by decide) (by decide) (by decide) (by decide) (by decide) (by decide)
    (by decide) (by decide) (by decide)

lemma detectRecursion_found_eq (code : Str) :
    (detectRecursion code).found = decide (0 < (detectRecursion code).functions.length) := rfl

lemma structuralVerdict_multi (li : LoopsInfo) (ri : RecursionInfo) (h1 : ri.found = true)
    (h2 : ri.functions.any (fun f => 1 < f.calls) = true) :
    structuralVerdict li ri =
      ⟨"O(2^n) (possible exponential recursive branching)".data,
        "Recursion with multiple recursive calls detected — likely exponential.".data,
        "O(n) (recursion stack)".data,
        "Recursion stack grows with depth.".data,
        Details.structural li ri⟩ := by
  unfold structuralVerdict
  rw [h1, h2]
  rfl

lemma structuralVerdict_single (li : LoopsInfo) (ri : RecursionInfo) (h1 : ri.found = true)
    (h2 : ri.functions.any (fun f => 1 < f.calls) = false) (h3 : li.loopCount = 0) :
    structuralVerdict li ri =
      ⟨"O(n) (single recursion)".data,
        "Single recursion detected — typically linear.".data,
        "O(n)".data,
        "Recursion stack.".data,
        Details.structural li ri⟩ := by
  unfold structuralVerdict
  rw [h1, h2, h3]
  rfl

lemma structuralVerdict_loops (li : LoopsInfo) (ri : RecursionInfo) (h1 : ri.found = false)
    (h2 : 0 < li.loopCount) :
    structuralVerdict li ri =
      ⟨(loopTimeText li).1, (loopTimeText li).2, "O(n)".data,
        "Output array grows with input size.".data, Details.structural li ri⟩ := by
  unfold structuralVerdict
  rw [h1]
  simp only [Bool.false_eq_true, if_false, if_pos h2]

/-- Claim C4: a single while loop whose condition variable is halved in the
body is classified logarithmic, and with no known pattern, no recursion and
no linear loops the verdict is time "O(log n)", space "O(n)", with the
divide-by-two explanation.  The witness instantiates this at the exact
scenario input `while (n > 1) { n = Math.floor(n / 2); }`. -/
theorem halving_while_log_time (s : Str) (hws : s.all isWS = false)
    (hknown : detectKnownAlgorithms (stripCommentsAndStrings s) = none)
    (hrec : (detectRecursion (stripCommentsAndStrings s)).found = false)
    (hcount : 0 < (detectLoopsAndNesting (stripCommentsAndStrings s)).loopCount)
    (hlog : (detectLoopsAndNesting (stripCommentsAndStrings s)).logDetected = true)
    (hmax : (detectLoopsAndNesting (stripCommentsAndStrings s)).maxNestedN = 0) :
    (analyzeComplexity s).time = "O(log n)".data ∧
      (analyzeComplexity s).space = "O(n)".data ∧
      (analyzeComplexity s).timeExplanation =
        "Detected logarithmic loop pattern (divide-by-two behavior).".data := by
  rw [analyze_structural hws hknown]
  unfold structuralVerdict loopTimeText
  rw [hrec, hlog, hmax]
  simp [hcount]

theorem halving_while_log_time_witness :
    (analyzeComplexity ("while (n > 1) \x7b n = Math.floor(n / 2); \x7d".data)).time =
        "O(log n)".data ∧
      (analyzeComplexity ("while (n > 1) \x7b n = Math.floor(n / 2); \x7d".data)).space =
        "O(n)".data ∧
      (analyzeComplexity ("while (n > 1) \x7b n = Math.floor(n / 2); \x7d".data)).timeExplanation =
        "Detected logarithmic loop pattern (divide-by-two behavior).".data :=
  halving_while_log_time ("while (n > 1) \x7b n = Math.floor(n / 2); \x7d".data)
    (by decide) (by decide) (by decide) (by decide) (by decide) (by decide)

/-- Claim C5: whenever the loop analyzer records two counting (`for`) loops
with the inner at brace depth exactly one greater than the outer and both
headers mentioning a length/size/len keyword — and no known pattern, no
recursion and no logarithmic loop is detected — the verdict's time is
"O(n²)" with the nested same-array double-loop explanation.  The conclusion
does not depend on the generic `maxNestedN` count: the idiom takes
precedence over the generic nested-count rule. -/
theorem nested_length_for_quadratic (s : Str) (hws : s.all isWS = false)
    (hknown : detectKnownAlgorithms (stripCommentsAndStrings s) = none)
    (hrec : (detectRecursion (stripCommentsAndStrings s)).found = false)
    (hlog : (detectLoopsAndNesting (stripCommentsAndStrings s)).logDetected = false)
    (hpair : ∃ outer ∈ (detectLoopsAndNesting (stripCommentsAndStrings s)).loopInfos,
      ∃ inner ∈ (detectLoopsAndNesting (stripCommentsAndStrings s)).loopInfos,
        inner.depth = outer.depth + 1 ∧ inner.type = LoopType.forKind ∧
          outer.type = LoopType.forKind ∧
          lenSizeHit (lowerL outer.header) = true ∧ lenSizeHit (lowerL inner.header) = true) :
    (analyzeComplexity s).time = "O(n²)".data ∧
      (analyzeComplexity s).timeExplanation =
        "Detected two nested loops iterating over same array.".data := by
  have hnsa : hasNestedSameArray
      (detectLoopsAndNesting (stripCommentsAndStrings s)).loopInfos = true :=
    hasNested_iff.mpr hpair
  have hcount : 0 < (detectLoopsAndNesting (stripCommentsAndStrings s)).loopCount := by
    rw [detectLoops_loopCount_eq]
    obtain ⟨outer, ho, _⟩ := hpair
    exact List.length_pos.mpr (List.ne_nil_of_mem ho)
  rw [analyze_structural hws hknown]
  unfold structuralVerdict loopTimeText
  rw [hrec, hlog, hnsa]
  simp [hcount]

set_option maxRecDepth 100000 in
theorem nested_length_for_quadratic_witness :
    (analyzeComplexity
        ("function f(a) \x7b for (i = 0; i < a.length; i++) \x7b for (j = 0; j < a.length; j++) \x7b x = 1; \x7d \x7d \x7d".data)).time =
      "O(n²)".data :=
  (nested_length_for_quadratic
    ("function f(a) \x7b for (i = 0; i < a.length; i++) \x7b for (j = 0; j < a.length; j++) \x7b x = 1; \x7d \x7d \x7d".data)
    (by decide) (by decide) (by decide) (by decide) (by decide)).1

/-- Claim C6: when the recursion analyzer records a function with more than
one self-call site and no loops are present (and no known pattern matched),
the verdict's time string contains "O(2^n)" (it is the exponential-branching
string), the space is the linear recursion-stack bound, and the explanation
cites multiple recursive calls / likely exponential. -/
theorem multi_self_call_exponential (s : Str) (hws : s.all isWS = false)
    (hknown : detectKnownAlgorithms (stripCommentsAndStrings s) = none)
    (hmulti : (detectRecursion (stripCommentsAndStrings s)).functions.any
      (fun f => 1 < f.calls) = true)
    (_hnoloops : (detectLoopsAndNesting (stripCommentsAndStrings s)).loopCount = 0) :
    infixOfB ("O(2^n)".data) (analyzeComplexity s).time = true ∧
      (analyzeComplexity s).time = "O(2^n) (possible exponential recursive branching)".data ∧
      (analyzeComplexity s).space = "O(n) (recursion stack)".data ∧
      (analyzeComplexity s).timeExplanation =
        "Recursion with multiple recursive calls detected — likely exponential.".data := by
  have hfound : (detectRecursion (stripCommentsAndStrings s)).found = true := by
    rw [detectRecursion_found_eq]
    obtain ⟨f, hf, _⟩ := List.any_eq_true.mp hmulti
    simp [List.length_pos, List.ne_nil_of_mem hf]
  rw [analyze_structural hws hknown, structuralVerdict_multi _ _ hfound hmulti]
  refine ⟨?_, rfl, rfl, rfl⟩
  dsimp only
  decide

theorem multi_self_call_exponential_witness :
    (analyzeComplexity ("function h(n) \x7b return h(n) + h(n); \x7d".data)).time =
      "O(2^n) (possible exponential recursive branching)".data :=
  (multi_self_call_exponential ("function h(n) \x7b return h(n) + h(n); \x7d".data)
    (by decide) (by decide) (by decide) (by decide)).2.1

/-- Claim C7 counterexample: for `function g(x) { return g(x); }` — a
declared function with exactly one self-call in its body, no loops, no known
pattern — the verdict's time is the string "O(n) (single recursion)", not
"O(n)" as the claim states. -/
theorem single_recursion_time_cex :
    (detectRecursion
        (stripCommentsAndStrings ("function g(x) \x7b return g(x); \x7d".data))).found = true ∧
      (detectRecursion
          (stripCommentsAndStrings
            ("function g(x) \x7b return g(x); \x7d".data))).functions.all
        (fun f => f.calls = 1) = true ∧
      (detectLoopsAndNesting
          (stripCommentsAndStrings
            ("function g(x) \x7b return g(x); \x7d".data))).loopCount = 0 ∧
      (analyzeComplexity ("function g(x) \x7b return g(x); \x7d".data)).time ≠ "O(n)".data ∧
      (analyzeComplexity ("function g(x) \x7b return g(x); \x7d".data)).time =
        "O(n) (single recursion)".data :=
  ⟨by decide, by decide, by decide, by decide, by decide⟩

/-- Claim C7 (amended): for every input declaring recursion where no recorded
function has more than one self-call and no loops are present (and no known
pattern matched), the verdict's time is "O(n) (single recursion)" — a string
containing "O(n)" — with linear space and the recursion-stack explanation. -/
theorem single_recursion_time_amended (s : Str) (hws : s.all isWS = false)
    (hknown : detectKnownAlgorithms (stripCommentsAndStrings s) = none)
    (hfound : (detectRecursion (stripCommentsAndStrings s)).found = true)
    (hsingle : (detectRecursion (stripCommentsAndStrings s)).functions.any
      (fun f => 1 < f.calls) = false)
    (hnoloops : (detectLoopsAndNesting (stripCommentsAndStrings s)).loopCount = 0) :
    (analyzeComplexity s).time = "O(n) (single recursion)".data ∧
      infixOfB ("O(n)".data) (analyzeComplexity s).time = true ∧
      (analyzeComplexity s).space = "O(n)".data ∧
      (analyzeComplexity s).spaceExplanation = "Recursion stack.".data ∧
      (analyzeComplexity s).timeExplanation =
        "Single recursion detected — typically linear.".data := by
  rw [analyze_structural hws hknown, structuralVerdict_single _ _ hfound hsingle hnoloops]
  refine ⟨rfl, ?_, rfl, rfl, rfl⟩
  dsimp only
  decide

theorem single_recursion_time_amended_witness :
    (analyzeComplexity ("function g(x) \x7b return g(x); \x7d".data)).time =
      "O(n) (single recursion)".data :=
  (single_recursion_time_amended ("function g(x) \x7b return g(x); \x7d".data)
    (by decide) (by decide) (by decide) (by decide) (by decide)).1

lemma structuralVerdict_details (li : LoopsInfo) (ri : RecursionInfo) :
    (structuralVerdict li ri).details = Details.structural li ri := by
  unfold structuralVerdict
  repeat' split
  all_goals rfl

/-- Claim C8 counterexample: the empty-input branch returns empty diagnostics
(no loop or recursion records), and the known-pattern branch returns only the
matched algorithm names — so diagnostics do not carry the raw structural
findings in every branch. -/
theorem diagnostics_branches_cex :
    (analyzeComplexity ("".data)).details = Details.empty ∧
      (analyzeComplexity ("dijkstra".data)).details =
        Details.known [("Dijkstra\x27s algorithm".data)] :=
  ⟨by decide, by decide⟩

/-- Claim C8 (amended): the diagnostics carry the raw structural findings
(the loop records and recursion records) in all structural branches — every
branch reached when the input is not whitespace-only and no known pattern
matched — while the empty-input branch returns empty diagnostics and the
known-pattern branch returns only the matched algorithm names. -/
theorem diagnostics_structural_amended (s : Str) :
    (s.all isWS = false → detectKnownAlgorithms (stripCommentsAndStrings s) = none →
      (analyzeComplexity s).details =
        Details.structural (detectLoopsAndNesting (stripCommentsAndStrings s))
          (detectRecursion (stripCommentsAndStrings s))) ∧
    (s.all isWS = true → (analyzeComplexity s).details = Details.empty) ∧
    (∀ k : KnownResult, s.all isWS = false →
      detectKnownAlgorithms (stripCommentsAndStrings s) = some k →
      (analyzeComplexity s).details = Details.known k.matchNames) := by
  refine ⟨fun hws hk => ?_, fun hws => ?_, fun k hws hk => ?_⟩
  · rw [analyze_structural hws hk]
    exact structuralVerdict_details _ _
  · unfold analyzeComplexity
    rw [hws]
    rfl
  · rw [analyze_known hws hk]

theorem diagnostics_structural_amended_witness :
    (analyzeComplexity ("x = 1".data)).details =
        Details.structural (detectLoopsAndNesting (stripCommentsAndStrings ("x = 1".data)))
          (detectRecursion (stripCommentsAndStrings ("x = 1".data))) ∧
      (analyzeComplexity (" ".data)).details = Details.empty ∧
      (analyzeComplexity ("dijkstra".data)).details =
        Details.known [("Dijkstra\x27s algorithm".data)] :=
  ⟨(diagnostics_structural_amended ("x = 1".data)).1 (by decide) (by decide),
   (diagnostics_structural_amended (" ".data)).2.1 (by decide),
   (diagnostics_structural_amended ("dijkstra".data)).2.2
     ⟨"O((V + E) log V)".data,
       "Detected known algorithm or strong hint: Dijkstra\x27s algorithm.".data,
       "O(V + E)".data, "O(V + E)".data, [("Dijkstra\x27s algorithm".data)]⟩
     (by decide) (by decide)⟩

/-- Claim C9: whenever the sanitized text contains a Fibonacci mention (the
word "fibonacci" with word boundaries, or a call "fib(" with a left word
boundary), the known-pattern matcher pushes the memoized-Fibonacci entry
(O(n) time, O(n) space) if a memoization-related keyword co-occurs, and the
naive exponential-recursion entry (O(2^n) time, O(n) space) otherwise. -/
theorem fibonacci_classification (code : Str)
    (hfib : wordHit ("fibonacci".data) (lowerL code) = true ∨
      leftBoundHit ("fib(".data) (lowerL code) = true) :
    (memoHit (lowerL code) = true →
      AlgoEntry.mk ("Memoized Fibonacci (DP)".data) ("O(n)".data) ("O(n)".data) ∈
        algoResults (lowerL code) code) ∧
    (memoHit (lowerL code) = false →
      AlgoEntry.mk ("Naive Recursive Fibonacci".data) ("O(2^n)".data) ("O(n)".data) ∈
        algoResults (lowerL code) code) := by
  have hf : fibHit (lowerL code) = true := by
    unfold fibHit
    rcases hfib with h | h <;> simp [h]
  constructor
  · intro hm
    simp only [algoResults, preResults, fibResults, hf, hm, optE_true, if_true]
    simp [List.mem_append]
  · intro hm
    simp only [algoResults, preResults, fibResults, hf, hm, optE_true]
    simp [List.mem_append]

theorem fibonacci_classification_witness :
    AlgoEntry.mk ("Naive Recursive Fibonacci".data) ("O(2^n)".data) ("O(n)".data) ∈
      algoResults (lowerL ("fib(".data)) ("fib(".data) :=
  (fibonacci_classification ("fib(".data) (Or.inr (by decide))).2 (by decide)

/-- Claim C10 counterexample: for `for (x : xs) { x = x / 2; }` — an input
whose only loop is a single range-style for — the loop is indeed recorded
twice at the same position and depth, but the generic `for(...)` record is
classified logarithmic (its condition variable `x` is halved in the body),
not linear; consequently the max-nested-linear count is 1, not 2, and the
verdict's time is "O(n^1 log n)", not "O(n^2)". -/
theorem rangefor_double_count_cex :
    (detectLoopsAndNesting ("for (x : xs) \x7b x = x / 2; \x7d".data)).loopInfos =
        [⟨LoopType.forKind, "x : xs".data, 0, 0, IterKind.log⟩,
         ⟨LoopType.rangeforKind, "for (x : xs)".data, 0, 0, IterKind.n⟩] ∧
      (detectLoopsAndNesting ("for (x : xs) \x7b x = x / 2; \x7d".data)).maxNestedN = 1 ∧
      (analyzeComplexity ("for (x : xs) \x7b x = x / 2; \x7d".data)).time =
        "O(n^1 log n)".data ∧
      (analyzeComplexity ("for (x : xs) \x7b x = x / 2; \x7d".data)).time ≠ "O(n^2)".data :=
  ⟨by decide, by decide, by decide, by decide⟩

/-- Claim C10 (amended): a range-style (colon) for loop is recorded twice —
once by the generic `for(...)` pattern and once by the range-for pattern —
at the same position and brace depth; when neither record is classified
logarithmic both are linear, so for every input whose loop records are
exactly such a pair (with no recursion and no known-pattern match) the
max-nested-linear count is 2 and the verdict's time is "O(n^2)" rather than
"O(n)". -/
theorem rangefor_double_count_amended (s : Str) (hws : s.all isWS = false)
    (hknown : detectKnownAlgorithms (stripCommentsAndStrings s) = none)
    (hrec : (detectRecursion (stripCommentsAndStrings s)).found = false)
    (p d : Nat) (hf hr : Str)
    (hloops : (detectLoopsAndNesting (stripCommentsAndStrings s)).loopInfos =
      [⟨LoopType.forKind, hf, p, d, IterKind.n⟩,
       ⟨LoopType.rangeforKind, hr, p, d, IterKind.n⟩]) :
    (detectLoopsAndNesting (stripCommentsAndStrings s)).maxNestedN = 2 ∧
      (analyzeComplexity s).time = "O(n^2)".data := by
  have hcountAt : ∀ d', nCountAt
      [LoopRecord.mk LoopType.forKind hf p d IterKind.n,
       LoopRecord.mk LoopType.rangeforKind hr p d IterKind.n] d' =
        if d = d' then 2 else 0 := by
    intro d'
    unfold nCountAt
    by_cases hdd : d = d' <;> simp [hdd]
  have hmax : (detectLoopsAndNesting (stripCommentsAndStrings s)).maxNestedN = 2 := by
    rw [detectLoops_maxNestedN_eq, hloops]
    unfold computeMaxNestedN
    have hmd : maxDepthOf
        [LoopRecord.mk LoopType.forKind hf p d IterKind.n,
         LoopRecord.mk LoopType.rangeforKind hr p d IterKind.n] = d := by
      unfold maxDepthOf
      simp [Nat.max_self]
    rw [hmd]
    refine Nat.le_antisymm ?_ ?_
    · refine foldl_max_le _ _ (Nat.zero_le 2) ?_
      intro i _
      rw [hcountAt i]
      split <;> omega
    · have h2 := (@le_foldl_max (fun d' => nCountAt
        [LoopRecord.mk LoopType.forKind hf p d IterKind.n,
         LoopRecord.mk LoopType.rangeforKind hr p d IterKind.n] d')
          (List.range (d + 1)) 0).1 d (List.mem_range.mpr (Nat.lt_succ_self d))
      rw [hcountAt d] at h2
      simpa using h2
  refine ⟨hmax, ?_⟩
  have hlog : (detectLoopsAndNesting (stripCommentsAndStrings s)).logDetected = false := by
    rw [detectLoops_logDetected_eq, hloops]
    simp
  have hcount : 0 < (detectLoopsAndNesting (stripCommentsAndStrings s)).loopCount := by
    rw [detectLoops_loopCount_eq, hloops]
    simp
  have hnsa : hasNestedSameArray
      (detectLoopsAndNesting (stripCommentsAndStrings s)).loopInfos = false := by
    rw [hloops, Bool.eq_false_iff]
    intro hc
    rw [hasNested_iff] at hc
    obtain ⟨o, ho, i, hi, hdep, _⟩ := hc
    simp only [List.mem_cons, List.not_mem_nil, or_false] at ho hi
    rcases ho with rfl | rfl <;> rcases hi with rfl | rfl <;> simp at hdep
  rw [analyze_structural hws hknown, structuralVerdict_loops _ _ hrec hcount]
  dsimp only
  unfold loopTimeText
  rw [hlog, hnsa, hmax]
  rfl

set_option maxRecDepth 100000 in
theorem rangefor_double_count_amended_witness :
    (detectLoopsAndNesting
        (stripCommentsAndStrings ("for (x : xs) \x7b y = 1; \x7d".data))).maxNestedN = 2 ∧
      (analyzeComplexity ("for (x : xs) \x7b y = 1; \x7d".data)).time = "O(n^2)".data :=
  rangefor_double_count_amended ("for (x : xs) \x7b y = 1; \x7d".data) (by decide) (by decide)
    (by decide) 0 0 ("x : xs".data) ("for (x : xs)".data) (by decide)
